import Mathlib

set_option maxHeartbeats 1000000

/-!
Verification of the GoldenBridge ambulance-arrival system.

The Python sources are embedded shallowly: dictionaries indexed with
`dict.get(key, default)` become structures of `Option` fields read with
`Option.getD`, integer vitals become `Int`, float quantities (the shock
index, the revised trauma score) become `ℚ`, and each Python function
becomes a Lean function with the same name and the same control flow.
-/

namespace GoldenBridge

/-! ## Data model shared by the AI modules (`ai_modules/`)

`vitals`, `symptoms` and `scores` are Python dicts; the modules read them
only through `.get` with fixed defaults, so each is embedded as a structure
of optional fields (a missing key is `none`). -/

/-- Vitals record as read by `ai_triage.py` / `clinical_scoring.py`:
`heart_rate`, `spo2`, `blood_pressure_systolic`, `gcs`, `respiratory_rate`. -/
structure Vitals where
  heart_rate : Option Int := none
  spo2 : Option Int := none
  blood_pressure_systolic : Option Int := none
  gcs : Option Int := none
  respiratory_rate : Option Int := none
  deriving DecidableEq

/-- Symptom flags read by the triage module (`symptoms.get(flag)`; a missing
flag is falsy in Python, hence `Option Bool` read with `getD false`). -/
structure Symptoms where
  chest_pain : Option Bool := none
  st_elevation : Option Bool := none
  diaphoresis : Option Bool := none
  nausea : Option Bool := none
  deriving DecidableEq

/-- The score payloads consumed by `ai_triage.py`: the module reads
`scores.get(kind, {}).get('score' | 'value', default)`, so each kind is one
optional field here.  The shock-index value and the revised trauma score are
floats in the source, embedded as `ℚ`. -/
structure Scores where
  shock_index_value : Option ℚ := none
  stemi_checklist_score : Option Int := none
  nihss_score : Option Int := none
  trauma_score : Option ℚ := none
  qsofa_score : Option Int := none
  deriving DecidableEq

/-! ## `ai_modules/ai_triage.py` — `AITriagePredictor` -/

/-- Result of `AITriagePredictor.predict_severity`. -/
structure SeverityResult where
  score : ℕ
  level : String
  priority : String
  color : String
  contributing_factors : List String
  deriving DecidableEq

/-- Embedding of `AITriagePredictor.predict_severity` (ai_triage.py lines
14-92): sequential accumulation of the severity score and the contributing
factors, capped at 100, then the four-band level mapping. -/
def predict_severity (vitals : Vitals) (symptoms : Symptoms) (scores : Scores) :
    SeverityResult :=
  let hr := vitals.heart_rate.getD 70
  let spo2 := vitals.spo2.getD 98
  let sbp := vitals.blood_pressure_systolic.getD 120
  let gcs := vitals.gcs.getD 15
  let shock_index := scores.shock_index_value.getD (7/10 : ℚ)
  let s1 : ℕ := if 120 < hr ∨ hr < 50 then 0 + 15 else 0
  let s2 := if spo2 < 90 then s1 + 20 else if spo2 < 94 then s1 + 10 else s1
  let s3 := if sbp < 90 then s2 + 20 else s2
  let s4 := if gcs < 9 then s3 + 25 else if gcs < 13 then s3 + 15 else s3
  let s5 := if symptoms.chest_pain.getD false then s4 + 10 else s4
  let s6 := if symptoms.st_elevation.getD false then s5 + 15 else s5
  let s7 := if 1 < shock_index then s6 + 15 else s6
  let severity_score := min s7 100
  let factors :=
    (if 120 < hr ∨ hr < 50 then ["Abnormal Heart Rate"] else []) ++
    (if spo2 < 90 then ["Critical Hypoxia"]
     else if spo2 < 94 then ["Moderate Hypoxia"] else []) ++
    (if sbp < 90 then ["Hypotension/Shock"] else []) ++
    (if gcs < 9 then ["Severely Altered Mental Status"]
     else if gcs < 13 then ["Altered Mental Status"] else []) ++
    (if symptoms.chest_pain.getD false then ["Chest Pain"] else []) ++
    (if symptoms.st_elevation.getD false then ["ST Elevation"] else []) ++
    (if 1 < shock_index then ["Shock State"] else [])
  if 75 ≤ severity_score then
    { score := severity_score, level := "CRITICAL", priority := "Resuscitation",
      color := "🔴", contributing_factors := factors }
  else if 50 ≤ severity_score then
    { score := severity_score, level := "EMERGENT", priority := "Immediate",
      color := "🟠", contributing_factors := factors }
  else if 25 ≤ severity_score then
    { score := severity_score, level := "URGENT", priority := "Within 30 min",
      color := "🟡", contributing_factors := factors }
  else
    { score := severity_score, level := "NON-EMERGENT", priority := "Standard",
      color := "🟢", contributing_factors := factors }

/-- Embedding of `AITriagePredictor.predict_active_alerts` (ai_triage.py
lines 94-130): the five alert conditions appended in source order. -/
def predict_active_alerts (vitals : Vitals) (_symptoms : Symptoms)
    (scores : Scores) : List String :=
  let stemi_score := scores.stemi_checklist_score.getD 0
  let nihss := scores.nihss_score.getD 0
  let trauma_score := scores.trauma_score.getD 7
  let qsofa := scores.qsofa_score.getD 0
  let gcs := vitals.gcs.getD 15
  let sbp := vitals.blood_pressure_systolic.getD 120
  let spo2 := vitals.spo2.getD 98
  (if 3 ≤ stemi_score then ["STEMI"] else []) ++
  (if 7 < nihss then ["STROKE"] else []) ++
  (if trauma_score < 5 then ["TRAUMA"] else []) ++
  (if 2 ≤ qsofa then ["SEPSIS"] else []) ++
  (if gcs < 5 ∧ (sbp < 70 ∨ spo2 < 80) then ["CARDIAC_ARREST_RISK"] else [])

/-- C2 input: heart_rate=125, systolic_bp=85, spo2=89, gcs=13, no symptoms,
no scores supplied. -/
def c2Vitals : Vitals :=
  { heart_rate := some 125, spo2 := some 89,
    blood_pressure_systolic := some 85, gcs := some 13 }

/-- Accumulation step with one branch: pulling the running score out of the
conditional. -/
lemma acc_ite1 (c : Prop) [Decidable c] (a x : ℕ) :
    (if c then a + x else a) = a + (if c then x else 0) := by
  split_ifs <;> simp

/-- Accumulation step with two branches: pulling the running score out of the
conditional. -/
lemma acc_ite2 (c₁ c₂ : Prop) [Decidable c₁] [Decidable c₂] (a x y : ℕ) :
    (if c₁ then a + x else if c₂ then a + y else a) =
      a + (if c₁ then x else if c₂ then y else 0) := by
  split_ifs <;> simp

/-- Variant of `acc_ite2` after the inner branch has been rewritten by
`acc_ite1`. -/
lemma acc_ite3 (c₁ c₂ : Prop) [Decidable c₁] [Decidable c₂] (a x y : ℕ) :
    (if c₁ then a + x else a + (if c₂ then y else 0)) =
      a + (if c₁ then x else if c₂ then y else 0) := by
  split_ifs <;> simp

/-- C1: for every vitals input and symptom set, `predict_severity` returns as
score the sum of the fixed independent rule contributions (abnormal heart
rate +15, SpO2<90 +20 else <94 +10, systolic BP<90 +20, GCS<9 +25 else <13
+15, chest pain +10, ST elevation +15, shock index>1.0 +15) capped at 100,
and maps that total to exactly one of the four levels: >=75 CRITICAL,
>=50 EMERGENT, >=25 URGENT, otherwise NON-EMERGENT. -/
theorem predict_severity_rule_sum_and_bands
    (v : Vitals) (s : Symptoms) (sc : Scores) :
    let total :=
      (if 120 < v.heart_rate.getD 70 ∨ v.heart_rate.getD 70 < 50 then 15 else 0) +
      (if v.spo2.getD 98 < 90 then 20 else if v.spo2.getD 98 < 94 then 10 else 0) +
      (if v.blood_pressure_systolic.getD 120 < 90 then 20 else 0) +
      (if v.gcs.getD 15 < 9 then 25 else if v.gcs.getD 15 < 13 then 15 else 0) +
      (if s.chest_pain.getD false then 10 else 0) +
      (if s.st_elevation.getD false then 15 else 0) +
      (if 1 < sc.shock_index_value.getD (7/10 : ℚ) then 15 else 0)
    (predict_severity v s sc).score = min total 100 ∧
    (predict_severity v s sc).level =
      (if 75 ≤ min total 100 then "CRITICAL"
       else if 50 ≤ min total 100 then "EMERGENT"
       else if 25 ≤ min total 100 then "URGENT"
       else "NON-EMERGENT") := by
  simp only [predict_severity, acc_ite1, acc_ite2, acc_ite3, zero_add,
    apply_ite SeverityResult.score, apply_ite SeverityResult.level, ite_self]
  exact ⟨trivial, trivial⟩

/-- C2 counterexample: on vitals heart_rate=125, systolic_bp=85, spo2=89,
gcs=13 with no symptoms and no shock-index score, `predict_severity` does
not return score 45 with level URGENT (spo2=89 falls in the <90 critical
band, +20, so the score is 55 and the level EMERGENT). -/
theorem predict_severity_example_counterexample :
    ¬ ((predict_severity c2Vitals {} {}).score = 45 ∧
       (predict_severity c2Vitals {} {}).level = "URGENT") := by
  norm_num [predict_severity, c2Vitals]

/-- C2 amended: on vitals heart_rate=125, systolic_bp=85, spo2=89, gcs=13
with no symptoms and no shock-index score, `predict_severity` returns
severity score 55 (15 for heart rate + 20 for critical hypoxia + 20 for
hypotension) and level EMERGENT. -/
theorem predict_severity_example_amended :
    (predict_severity c2Vitals {} {}).score = 55 ∧
    (predict_severity c2Vitals {} {}).level = "EMERGENT" := by
  norm_num [predict_severity, c2Vitals]

/-- C3: for every vitals input and score record, `predict_active_alerts`
contains STEMI iff the STEMI checklist score is >=3, STROKE iff the NIHSS
score is >7, TRAUMA iff the trauma score is <5, SEPSIS iff the qSOFA score
is >=2, and CARDIAC_ARREST_RISK iff GCS<5 and (systolic BP<70 or SpO2<80);
the result is a duplicate-free sublist of the fixed evaluation order. -/
theorem predict_active_alerts_membership_order
    (v : Vitals) (s : Symptoms) (sc : Scores) :
    ("STEMI" ∈ predict_active_alerts v s sc ↔
        3 ≤ sc.stemi_checklist_score.getD 0) ∧
    ("STROKE" ∈ predict_active_alerts v s sc ↔ 7 < sc.nihss_score.getD 0) ∧
    ("TRAUMA" ∈ predict_active_alerts v s sc ↔ sc.trauma_score.getD 7 < 5) ∧
    ("SEPSIS" ∈ predict_active_alerts v s sc ↔ 2 ≤ sc.qsofa_score.getD 0) ∧
    ("CARDIAC_ARREST_RISK" ∈ predict_active_alerts v s sc ↔
        (v.gcs.getD 15 < 5 ∧
          (v.blood_pressure_systolic.getD 120 < 70 ∨ v.spo2.getD 98 < 80))) ∧
    List.Sublist (predict_active_alerts v s sc)
      ["STEMI", "STROKE", "TRAUMA", "SEPSIS", "CARDIAC_ARREST_RISK"] ∧
    (predict_active_alerts v s sc).Nodup := by
  simp only [predict_active_alerts]
  set_option linter.unnecessarySeqFocus false in
  split_ifs <;> simp_all <;> decide

/-! ## `ai_modules/clinical_scoring.py` — `ClinicalScorer` -/

/-- Python `round(x, 2)`: rounding to two decimal places.  (CPython rounds
ties to even; the tie rule is irrelevant to the claims proved here, which
only evaluate it away from ties, so the Mathlib `round` is used.) -/
def round2 (x : ℚ) : ℚ := (round (x * 100) : ℤ) / 100

/-- Result of `ClinicalScorer.calculate_shock_index`. -/
structure ShockIndexResult where
  value : ℚ
  interpretation : String
  normal_range : String
  recommendation : String
  deriving DecidableEq

/-- Embedding of `ClinicalScorer.calculate_shock_index` (clinical_scoring.py
lines 174-200): heart rate over systolic blood pressure, with denominator 1
substituted when the systolic pressure is 0. -/
def calculate_shock_index (vitals : Vitals) : ShockIndexResult :=
  let hr := vitals.heart_rate.getD 70
  let sbp0 := vitals.blood_pressure_systolic.getD 120
  let sbp : ℤ := if sbp0 = 0 then 1 else sbp0
  let shock_index : ℚ := (hr : ℚ) / (sbp : ℚ)
  { value := round2 shock_index,
    interpretation :=
      if 1 < shock_index then "Shock State"
      else if 9/10 < shock_index then "Pre-Shock / Compensated"
      else "Normal",
    normal_range := "0.5-0.7",
    recommendation := if 1 < shock_index then "Immediate Resuscitation" else "Monitor" }

/-- One telemetry history entry as read by
`ClinicalScorer.calculate_deterioration_index`. -/
structure TelemetryEntry where
  heart_rate : ℤ
  spo2 : ℤ
  blood_pressure_systolic : ℤ
  deriving DecidableEq, Inhabited

/-- Result of `ClinicalScorer.calculate_deterioration_index`; the
insufficient-data branch returns a dict with a `trend` key, the main branch
one with `trends` and `recommendation` keys, hence the optional fields. -/
structure DeteriorationResult where
  score : ℕ
  interpretation : String
  trend : Option String := none
  trends : Option (List String) := none
  recommendation : Option String := none
  deriving DecidableEq

/-- Embedding of `ClinicalScorer.calculate_deterioration_index`
(clinical_scoring.py lines 202-251): with fewer than 3 history entries the
fixed insufficient-data result; otherwise trend points accumulated from the
first and last of the most recent 3 entries. -/
def calculate_deterioration_index (vitals_history : List TelemetryEntry) :
    DeteriorationResult :=
  if vitals_history.length < 3 then
    { score := 0, interpretation := "Insufficient Data", trend := some "Unknown" }
  else
    let recent := vitals_history.drop (vitals_history.length - 3)
    let hr_values := recent.map (·.heart_rate)
    let spo2_values := recent.map (·.spo2)
    let bp_values := recent.map (·.blood_pressure_systolic)
    let d1 : ℕ := if hr_values.headI + 10 < hr_values.getLastI then 0 + 1 else 0
    let d2 := if spo2_values.getLastI < spo2_values.headI - 3 then d1 + 2 else d1
    let d3 := if bp_values.getLastI < bp_values.headI - 15 then d2 + 2 else d2
    let trends :=
      (if hr_values.headI + 10 < hr_values.getLastI then ["↑ Increasing HR"] else []) ++
      (if spo2_values.getLastI < spo2_values.headI - 3 then ["↓ Decreasing SpO2"] else []) ++
      (if bp_values.getLastI < bp_values.headI - 15 then ["↓ Decreasing BP"] else [])
    { score := d3,
      interpretation :=
        if 3 ≤ d3 then "Rapidly Deteriorating"
        else if 2 ≤ d3 then "Deteriorating"
        else if d3 = 0 then "Stable" else "Concerning Trend",
      trends := some trends,
      recommendation :=
        some (if 3 ≤ d3 then "Escalate Care Immediately" else "Monitor Closely") }

/-- C4 history: [{hr:80,spo2:98,sbp:120},{hr:85,spo2:97,sbp:118},
{hr:95,spo2:93,sbp:100}]. -/
def c4History : List TelemetryEntry :=
  [⟨80, 98, 120⟩, ⟨85, 97, 118⟩, ⟨95, 93, 100⟩]

/-- C4: with fewer than 3 history entries `calculate_deterioration_index`
returns the fixed insufficient-data result (score 0); with >=3 entries it
compares the first and last of the most recent 3 entries (+1 if heart rate
rose by more than 10, +2 if SpO2 fell by more than 3, +2 if systolic BP fell
by more than 15) and maps the total: >=3 rapidly deteriorating, >=2
deteriorating, 0 stable, otherwise concerning trend; the concrete history of
the claim yields score 5 and interpretation "Rapidly Deteriorating". -/
theorem calculate_deterioration_index_spec :
    (∀ h : List TelemetryEntry, h.length < 3 →
      calculate_deterioration_index h =
        { score := 0, interpretation := "Insufficient Data",
          trend := some "Unknown" }) ∧
    (∀ h : List TelemetryEntry, 3 ≤ h.length →
      ∃ a b c : TelemetryEntry, h.drop (h.length - 3) = [a, b, c] ∧
        (calculate_deterioration_index h).score =
          ((if a.heart_rate + 10 < c.heart_rate then 1 else 0) +
           (if c.spo2 < a.spo2 - 3 then 2 else 0) +
           (if c.blood_pressure_systolic < a.blood_pressure_systolic - 15
            then 2 else 0)) ∧
        (calculate_deterioration_index h).interpretation =
          (if 3 ≤ (calculate_deterioration_index h).score
           then "Rapidly Deteriorating"
           else if 2 ≤ (calculate_deterioration_index h).score
           then "Deteriorating"
           else if (calculate_deterioration_index h).score = 0
           then "Stable" else "Concerning Trend")) ∧
    (calculate_deterioration_index c4History).score = 5 ∧
    (calculate_deterioration_index c4History).interpretation =
      "Rapidly Deteriorating" := by
  refine ⟨?_, ?_, by decide, by decide⟩
  · intro h hlt
    simp only [calculate_deterioration_index, if_pos hlt]
  · intro h hge
    have h3 : (h.drop (h.length - 3)).length = 3 := by
      rw [List.length_drop]; omega
    obtain ⟨a, b, c, e⟩ := List.length_eq_three.mp h3
    refine ⟨a, b, c, e, ?_⟩
    simp only [calculate_deterioration_index, if_neg (by omega : ¬ h.length < 3), e,
      acc_ite1, zero_add, List.map_cons, List.map_nil, List.headI,
      List.getLastI_eq_getLast?, List.getLast?_cons, List.getLast?_singleton,
      List.getLast?_nil, Option.getD_none, Option.getD_some, Option.iget_some]
    exact ⟨trivial, trivial⟩

/-- C4 witness: the insufficient-data branch at the empty history and the
main branch at the three-entry history of the claim. -/
theorem calculate_deterioration_index_spec_witness :
    (calculate_deterioration_index []).interpretation = "Insufficient Data" ∧
    (calculate_deterioration_index c4History).score = 5 := by
  refine ⟨?_, calculate_deterioration_index_spec.2.2.1⟩
  rw [calculate_deterioration_index_spec.1 [] (by decide)]

/-- C5: `calculate_shock_index` substitutes denominator 1 when the systolic
pressure is 0 (so the denominator is never 0 and no division error can
occur), returns as value the quotient heart_rate / substituted-systolic
rounded to two decimals, interprets the quotient as Shock State when >1.0,
pre-shock when >0.9, otherwise normal; hr=140, sbp=0 yields value 140.0 and
"Shock State". -/
theorem calculate_shock_index_safe (v : Vitals) :
    let hr := v.heart_rate.getD 70
    let sbp := v.blood_pressure_systolic.getD 120
    let d : ℤ := if sbp = 0 then 1 else sbp
    d ≠ 0 ∧
    (calculate_shock_index v).value = round2 ((hr : ℚ) / (d : ℚ)) ∧
    (calculate_shock_index v).interpretation =
      (if 1 < (hr : ℚ) / (d : ℚ) then "Shock State"
       else if 9/10 < (hr : ℚ) / (d : ℚ) then "Pre-Shock / Compensated"
       else "Normal") ∧
    (calculate_shock_index
      { heart_rate := some 140, blood_pressure_systolic := some 0 }).value
        = 140 ∧
    (calculate_shock_index
      { heart_rate := some 140, blood_pressure_systolic := some 0
        }).interpretation = "Shock State" := by
  refine ⟨?_, rfl, rfl, ?_, ?_⟩
  · dsimp only
    split_ifs with h
    · omega
    · exact h
  · norm_num [calculate_shock_index, round2]
  · norm_num [calculate_shock_index]

/-! ## `simulators/emt_voice_simulator.py` — `EMTVoiceSimulator`

The simulator object carries fixed identification fields, an `eta_minutes`
field (never reassigned by the source) and the cursor `current_note_index`;
`generate_voice_note` mutates only the cursor, modelled as a state-passing
function returning the emitted note and the new state.  The wall-clock
`timestamp` field of the emitted dict is not modelled. -/

structure EMTVoiceSimulator where
  scenario : String := "mi_patient"
  ambulance_id : String := "AMB-001"
  patient_id : String := "P-2024-001"
  emt_name : String := "John Smith"
  patient_name : String := "Sarah Johnson"
  patient_ssn : String := "123-45-6789"
  eta_minutes : ℤ := 8
  current_note_index : ℕ := 0
  deriving DecidableEq

/-- The five MI-scenario notes built in `EMTVoiceSimulator.__init__` (the
f-string interpolations become string appends). -/
def mi_scenario_notes (sim : EMTVoiceSimulator) : List String :=
  ["This is EMT " ++ sim.emt_name ++ " from ambulance " ++ sim.ambulance_id ++
     ". We have a 58-year-old female patient " ++ sim.patient_name ++ ", SSN " ++
     sim.patient_ssn ++ ", presenting with severe chest pain radiating to the left arm. Patient reports history of angina and hypertension. ETA 8 minutes.",
   "Update on patient " ++ sim.patient_name ++ ". Chest pain started approximately 45 minutes ago. Patient describes it as crushing pressure. Administered aspirin 325mg and started oxygen at 4L. Vitals show tachycardia and hypotension.",
   "Patient is experiencing diaphoresis and nausea. Strong suspicion of myocardial infarction. Patient states her father died of heart attack at age 62. Currently on nitroglycerin from personal medication. Request cardiology team standby.",
   "ETA now 4 minutes. Patient " ++ sim.patient_name ++ " remains conscious but in significant distress. Pain level 8 out of 10. ST elevation noted on 12-lead ECG. This appears to be an acute MI. Recommend immediate catheter lab prep.",
   "Two minutes out. Patient condition stable but critical. Nitroglycerin providing minimal relief. IV established. All documentation will be transferred upon arrival. Catheter lab should be ready."]

/-- The three trauma-scenario notes built in `EMTVoiceSimulator.__init__`. -/
def trauma_scenario_notes (sim : EMTVoiceSimulator) : List String :=
  ["EMT " ++ sim.emt_name ++ " reporting. Motor vehicle collision victim, " ++
     sim.patient_name ++ ", SSN " ++ sim.patient_ssn ++
     ". Multiple trauma, suspected internal bleeding. Patient is semi-conscious. ETA 10 minutes.",
   "Patient has visible trauma to chest and abdomen. Possible rib fractures. Blood pressure dropping. Started two large bore IVs with normal saline. Rapid transport initiated.",
   "Update: Patient becoming more unstable. Signs of shock developing. Increased fluid resuscitation. Surgery team should be notified immediately. ETA 5 minutes."]

/-- Embedding of `EMTVoiceSimulator.get_scenario_notes` (lines 42-49). -/
def get_scenario_notes (sim : EMTVoiceSimulator) : List String :=
  if sim.scenario = "mi_patient" then mi_scenario_notes sim
  else if sim.scenario = "trauma" then trauma_scenario_notes sim
  else mi_scenario_notes sim

/-- The fixed terminal note returned once the scenario notes are exhausted. -/
def terminal_note (sim : EMTVoiceSimulator) : String :=
  "Final update: Arriving at hospital now. Patient " ++ sim.patient_name ++
    " ready for immediate transfer to ER team."

/-- The emitted voice-note record (wall-clock timestamp not modelled). -/
structure VoiceNote where
  ambulance_id : String
  patient_id : String
  emt_name : String
  voice_note : String
  note_type : String
  eta_minutes : ℤ
  deriving DecidableEq

/-- Embedding of `EMTVoiceSimulator.generate_voice_note` (lines 51-70).  The
Python increments `current_note_index` before building the returned dict, so
in the advancing branch the ETA uses the incremented cursor. -/
def generate_voice_note (sim : EMTVoiceSimulator) :
    VoiceNote × EMTVoiceSimulator :=
  let notes := get_scenario_notes sim
  if notes.length ≤ sim.current_note_index then
    ({ ambulance_id := sim.ambulance_id, patient_id := sim.patient_id,
       emt_name := sim.emt_name, voice_note := terminal_note sim,
       note_type := "voice_transcription",
       eta_minutes := max 0 (sim.eta_minutes - (sim.current_note_index : ℤ) * 2) },
     sim)
  else
    ({ ambulance_id := sim.ambulance_id, patient_id := sim.patient_id,
       emt_name := sim.emt_name,
       voice_note := notes.getD sim.current_note_index "",
       note_type := "voice_transcription",
       eta_minutes :=
         max 0 (sim.eta_minutes - ((sim.current_note_index : ℤ) + 1) * 2) },
     { sim with current_note_index := sim.current_note_index + 1 })

/-- The note emitted by one call. -/
def simNote (sim : EMTVoiceSimulator) : VoiceNote := (generate_voice_note sim).1

/-- The simulator state after one call. -/
def simStep (sim : EMTVoiceSimulator) : EMTVoiceSimulator :=
  (generate_voice_note sim).2

/-- The simulator state after `n` calls. -/
def simStates (sim0 : EMTVoiceSimulator) : ℕ → EMTVoiceSimulator
  | 0 => sim0
  | n + 1 => simStep (simStates sim0 n)

/-- Changing only the cursor does not change the scenario note list. -/
lemma get_scenario_notes_set_index (sim : EMTVoiceSimulator) (k : ℕ) :
    get_scenario_notes { sim with current_note_index := k } =
      get_scenario_notes sim := rfl

/-- Closed form of the cursor after `n` calls: it advances once per call
until it reaches the length of the note list and then stays there. -/
lemma simStates_closed (sim0 : EMTVoiceSimulator)
    (h0 : sim0.current_note_index = 0) (n : ℕ) :
    simStates sim0 n =
      { sim0 with
        current_note_index := min n (get_scenario_notes sim0).length } := by
  induction n with
  | zero => cases sim0; simp_all [simStates]
  | succ n ih =>
      rw [simStates, ih, simStep, generate_voice_note]
      simp only [get_scenario_notes_set_index]
      by_cases hc :
          (get_scenario_notes sim0).length ≤
            min n (get_scenario_notes sim0).length
      · rw [if_pos hc]
        have : min (n + 1) (get_scenario_notes sim0).length =
            min n (get_scenario_notes sim0).length := by omega
        rw [this]
      · rw [if_neg hc]
        have : min (n + 1) (get_scenario_notes sim0).length =
            min n (get_scenario_notes sim0).length + 1 := by omega
        rw [this]

/-- Closed form of the note emitted by call `n+1` (0-indexed `n`) of a
generator started at cursor 0. -/
lemma simNote_closed (sim0 : EMTVoiceSimulator)
    (h0 : sim0.current_note_index = 0) (n : ℕ) :
    simNote (simStates sim0 n) =
      { ambulance_id := sim0.ambulance_id, patient_id := sim0.patient_id,
        emt_name := sim0.emt_name,
        voice_note :=
          if n < (get_scenario_notes sim0).length
          then (get_scenario_notes sim0).getD n ""
          else terminal_note sim0,
        note_type := "voice_transcription",
        eta_minutes :=
          max 0 (sim0.eta_minutes -
            ((min (n + 1) (get_scenario_notes sim0).length : ℕ) : ℤ) * 2) } := by
  rw [simNote, simStates_closed sim0 h0 n, generate_voice_note]
  simp only [get_scenario_notes_set_index]
  by_cases hn : n < (get_scenario_notes sim0).length
  · have hmin : min n (get_scenario_notes sim0).length = n := by omega
    have hmin1 : min (n + 1) (get_scenario_notes sim0).length = n + 1 := by
      omega
    rw [if_neg (by simp [hmin]; omega)]
    simp only [hmin, hmin1]
    simp [hn]
  · have hmin : min n (get_scenario_notes sim0).length =
        (get_scenario_notes sim0).length := by omega
    have hmin1 : min (n + 1) (get_scenario_notes sim0).length =
        (get_scenario_notes sim0).length := by omega
    rw [if_pos (by simp [hmin])]
    simp only [hmin, hmin1]
    simp [hn]
    rfl

/-- C8: for a generator started at cursor 0, call `n+1` (index `n`) returns
the `n`-th scenario note and advances the cursor while notes remain; once
the sequence is exhausted every call returns the fixed terminal arrival note
and leaves the cursor unchanged; the ETA returned is the initial ETA minus 2
per cursor advance, floored at zero, hence never negative, never increasing
from one call to the next, and decreasing by the fixed step 2 (floored at
zero) on each call that advances the cursor. -/
theorem generate_voice_note_sequence (sim0 : EMTVoiceSimulator)
    (h0 : sim0.current_note_index = 0) (n : ℕ) :
    (n < (get_scenario_notes sim0).length →
      (simNote (simStates sim0 n)).voice_note =
        (get_scenario_notes sim0).getD n "" ∧
      (simStates sim0 (n + 1)).current_note_index = n + 1) ∧
    ((get_scenario_notes sim0).length ≤ n →
      (simNote (simStates sim0 n)).voice_note = terminal_note sim0 ∧
      (simStates sim0 (n + 1)).current_note_index =
        (simStates sim0 n).current_note_index) ∧
    (simNote (simStates sim0 n)).eta_minutes =
      max 0 (sim0.eta_minutes -
        ((min (n + 1) (get_scenario_notes sim0).length : ℕ) : ℤ) * 2) ∧
    0 ≤ (simNote (simStates sim0 n)).eta_minutes ∧
    (simNote (simStates sim0 (n + 1))).eta_minutes ≤
      (simNote (simStates sim0 n)).eta_minutes ∧
    (n < (get_scenario_notes sim0).length →
      (simNote (simStates sim0 n)).eta_minutes =
        max 0 (max 0 (sim0.eta_minutes -
          ((min n (get_scenario_notes sim0).length : ℕ) : ℤ) * 2) - 2)) := by
  have hN := simNote_closed sim0 h0 n
  have hN1 := simNote_closed sim0 h0 (n + 1)
  have hS := simStates_closed sim0 h0 (n + 1)
  have hS0 := simStates_closed sim0 h0 n
  refine ⟨?_, ?_, ?_, ?_, ?_, ?_⟩
  · intro hn
    refine ⟨?_, ?_⟩
    · rw [hN]; simp [hn]
    · rw [hS]; simp; omega
  · intro hl
    refine ⟨?_, ?_⟩
    · rw [hN]; simp [Nat.not_lt.mpr hl]
    · rw [hS, hS0]; simp; omega
  · rw [hN]
  · rw [hN]; exact le_max_left 0 _
  · rw [hN, hN1]
    simp only []
    have hmm : min (n + 1) (get_scenario_notes sim0).length ≤
        min (n + 1 + 1) (get_scenario_notes sim0).length := by omega
    omega
  · intro hn
    rw [hN]
    have hmin : min n (get_scenario_notes sim0).length = n := by omega
    have hmin1 : min (n + 1) (get_scenario_notes sim0).length = n + 1 := by
      omega
    simp only [hmin, hmin1]
    push_cast
    omega

/-- C8 witness: the default generator (MI scenario, ETA 8) at its first
call returns the first MI note with ETA 6. -/
theorem generate_voice_note_sequence_witness :
    (simNote (simStates {} 0)).voice_note =
      (get_scenario_notes {}).getD 0 "" ∧
    (simNote (simStates {} 0)).eta_minutes = 6 := by
  have h := generate_voice_note_sequence {} rfl 0
  refine ⟨(h.1 (by decide)).1, ?_⟩
  rw [h.2.2.1]
  decide

/-! ## `dashboard/advanced_clinical_dashboard.py` — hospital resources

The session-state dict `hospital_resources` maps resource names to
`{total, available}` counters; `update_hospital_resources` only ever reads
and writes the `available` values, so the pool is embedded as one structure
of `available` counters (the constant `total` values play no role in the
update). -/

structure HospitalResources where
  icu_beds_available : ℤ
  ct_scanner_available : ℤ
  mri_scanner_available : ℤ
  or_rooms_available : ℤ
  blood_units_o_neg_available : ℤ
  blood_units_o_pos_available : ℤ
  ventilators_available : ℤ
  deriving DecidableEq

/-- The slice of `patient_data` read by `update_hospital_resources`:
`predictions['predictions']` flags (read with truthy `.get`) and the active
alert list. -/
structure PatientData where
  needs_icu : Option Bool := none
  needs_intubation : Option Bool := none
  needs_or : Option Bool := none
  active_alerts : List String := []
  deriving DecidableEq

/-- Embedding of `update_hospital_resources`
(advanced_clinical_dashboard.py lines 481-506): each counter is decremented
only when the guard shows enough availability. -/
def update_hospital_resources (patient_data : PatientData)
    (resources : HospitalResources) : HospitalResources :=
  let r1 :=
    if patient_data.needs_icu.getD false ∧ 0 < resources.icu_beds_available
    then { resources with
           icu_beds_available := resources.icu_beds_available - 1 }
    else resources
  let r2 :=
    if patient_data.needs_intubation.getD false ∧ 0 < r1.ventilators_available
    then { r1 with ventilators_available := r1.ventilators_available - 1 }
    else r1
  let r3 :=
    if patient_data.needs_or.getD false ∧ 0 < r2.or_rooms_available
    then { r2 with or_rooms_available := r2.or_rooms_available - 1 }
    else r2
  let r4 :=
    if ("STROKE" ∈ patient_data.active_alerts ∨
        "TRAUMA" ∈ patient_data.active_alerts) ∧ 0 < r3.ct_scanner_available
    then { r3 with ct_scanner_available := r3.ct_scanner_available - 1 }
    else r3
  if "TRAUMA" ∈ patient_data.active_alerts ∧
      2 ≤ r4.blood_units_o_neg_available
  then { r4 with
         blood_units_o_neg_available := r4.blood_units_o_neg_available - 2 }
  else r4

/-- C9: `update_hospital_resources` never drives an available counter
negative: from a pool whose counters are all nonnegative, every counter of
the updated pool is nonnegative; and a pool with 0 available ICU beds still
has 0 available ICU beds afterwards, whatever the patient predictions. -/
theorem update_hospital_resources_nonneg (p : PatientData)
    (r : HospitalResources)
    (h : 0 ≤ r.icu_beds_available ∧ 0 ≤ r.ct_scanner_available ∧
         0 ≤ r.mri_scanner_available ∧ 0 ≤ r.or_rooms_available ∧
         0 ≤ r.blood_units_o_neg_available ∧
         0 ≤ r.blood_units_o_pos_available ∧ 0 ≤ r.ventilators_available) :
    (0 ≤ (update_hospital_resources p r).icu_beds_available ∧
     0 ≤ (update_hospital_resources p r).ct_scanner_available ∧
     0 ≤ (update_hospital_resources p r).mri_scanner_available ∧
     0 ≤ (update_hospital_resources p r).or_rooms_available ∧
     0 ≤ (update_hospital_resources p r).blood_units_o_neg_available ∧
     0 ≤ (update_hospital_resources p r).blood_units_o_pos_available ∧
     0 ≤ (update_hospital_resources p r).ventilators_available) ∧
    (r.icu_beds_available = 0 →
      (update_hospital_resources p r).icu_beds_available = 0) := by
  simp only [update_hospital_resources]
  split_ifs <;> simp_all <;> omega

/-- C9 witness: a patient whose predictions include `needs_icu` applied to a
pool with 0 available ICU beds leaves the ICU counter at 0. -/
theorem update_hospital_resources_nonneg_witness :
    (update_hospital_resources { needs_icu := some true }
      { icu_beds_available := 0, ct_scanner_available := 1,
        mri_scanner_available := 1, or_rooms_available := 4,
        blood_units_o_neg_available := 25, blood_units_o_pos_available := 30,
        ventilators_available := 10 }).icu_beds_available = 0 := by
  exact (update_hospital_resources_nonneg { needs_icu := some true } _
    (by norm_num)).2 rfl

/-! ## `utils/aparavi_redactor.py` — `AparaviRedactor`

The redactor scans text with five fixed regexes (`pii_patterns`), collects
matches with spans and confidence 0.95, and replaces spans in reverse
position order.  Text is embedded as `List Char`; each regex becomes an
executable matcher `Option Char → List Char → Option ℕ` that, given the
character preceding the position (for the word boundary) and the suffix at
the position, returns the length of the match attempted there, reproducing
the Python `re` backtracking semantics of the concrete pattern.  Character
classes are read on ASCII text (all placeholder tokens and claim inputs are
ASCII). -/

/-- Python regex word character `\w` (ASCII view): letter, digit or
underscore. -/
def isWordChar (c : Char) : Bool := c.isAlphanum || c = '_'

/-- Word-character test on the optional character adjacent to a position:
the absent character at the ends of the text counts as a non-word character
for `\b`. -/
def isWordOpt : Option Char → Bool
  | none => false
  | some c => isWordChar c

/-- Python regex whitespace `\s` (ASCII view). -/
def isSpaceChar (c : Char) : Bool :=
  c = ' ' || c = '\t' || c = '\n' || c = '\r' ||
  c = Char.ofNat 11 || c = Char.ofNat 12

/-- Consume exactly `n` characters satisfying `p`, returning the rest. -/
def exactN : ℕ → (Char → Bool) → List Char → Option (List Char)
  | 0, _, s => some s
  | _ + 1, _, [] => none
  | n + 1, p, c :: cs => if p c then exactN n p cs else none

/-- Consume one fixed character, returning the rest. -/
def char1 (c : Char) : List Char → Option (List Char)
  | [] => none
  | x :: xs => if x = c then some xs else none

/-- Length of the maximal run of characters satisfying `p` at the head. -/
def maxRun (p : Char → Bool) (s : List Char) : ℕ := (s.takeWhile p).length

/-- Matcher for the SSN pattern `\b\d{3}-\d{2}-\d{4}\b` at one position. -/
def matchSSN (prev : Option Char) (s : List Char) : Option ℕ :=
  if isWordOpt prev then none  -- first char is a digit, so \b needs a non-word prev
  else do
    let s1 ← exactN 3 Char.isDigit s
    let s2 ← char1 '-' s1
    let s3 ← exactN 2 Char.isDigit s2
    let s4 ← char1 '-' s3
    let s5 ← exactN 4 Char.isDigit s4
    if isWordOpt s5.head? then none else some 11

/-- Tail `\d{4}\b` of the phone pattern; `k` characters already consumed. -/
def phoneEnd (k : ℕ) (s : List Char) : Option ℕ := do
  let s5 ← exactN 4 Char.isDigit s
  if isWordOpt s5.head? then none else some (k + 4)

/-- Tail `\d{3}[-.]?\d{4}\b` of the phone pattern: the optional separator is
greedy, with backtracking to the empty alternative. -/
def phoneGroup2 (k : ℕ) (s : List Char) : Option ℕ := do
  let s3 ← exactN 3 Char.isDigit s
  match s3 with
  | c :: cs =>
      if c = '-' ∨ c = '.' then phoneEnd (k + 4) cs <|> phoneEnd (k + 3) s3
      else phoneEnd (k + 3) s3
  | [] => phoneEnd (k + 3) s3

/-- Matcher for the phone pattern `\b\d{3}[-.]?\d{3}[-.]?\d{4}\b`. -/
def matchPhone (prev : Option Char) (s : List Char) : Option ℕ :=
  if isWordOpt prev then none
  else do
    let s1 ← exactN 3 Char.isDigit s
    match s1 with
    | c :: cs =>
        if c = '-' ∨ c = '.' then phoneGroup2 4 cs <|> phoneGroup2 3 s1
        else phoneGroup2 3 s1
    | [] => phoneGroup2 3 s1

/-- Character class `[A-Za-z0-9._%+-]` of the email local part. -/
def isLocalChar (c : Char) : Bool :=
  c.isAlphanum || c = '.' || c = '_' || c = '%' || c = '+' || c = '-'

/-- Character class `[A-Za-z0-9.-]` of the email domain part. -/
def isDomainChar (c : Char) : Bool := c.isAlphanum || c = '.' || c = '-'

/-- Character class `[A-Z|a-z]` closing the email pattern (the class
literally contains the bar character). -/
def isTldChar (c : Char) : Bool := c.isAlpha || c = '|'

/-- Greedy `[A-Z|a-z]{2,}\b`: try the run length `t`, backtracking down to
2 until the trailing word boundary holds; `k` characters already consumed
before this part.  The argument `t` never exceeds `maxRun isTldChar s`. -/
def tryTld (s : List Char) (k : ℕ) : ℕ → Option ℕ
  | 0 => none
  | 1 => none
  | t + 2 =>
      match s.get? (t + 1) with
      | some last =>
          if isWordChar last ≠ isWordOpt (s.get? (t + 2)) then some (k + t + 2)
          else tryTld s k (t + 1)
      | none => none

/-- Greedy `[A-Za-z0-9.-]+\.` of the email: try the domain length `j`,
backtracking downwards; the character at position `j` must be the literal
dot, after which the closing class takes over.  `s` is the text after the
`@`; `base` counts the characters consumed before the `@` (plus the `@`). -/
def tryDomain (s : List Char) (base : ℕ) : ℕ → Option ℕ
  | 0 => none
  | j + 1 =>
      (if s.get? (j + 1) = some '.' then
         tryTld (s.drop (j + 2)) (base + j + 2)
           (maxRun isTldChar (s.drop (j + 2)))
       else none) <|>
      tryDomain s base j

/-- Matcher for the email pattern
`\b[A-Za-z0-9._%+-]+@[A-Za-z0-9.-]+\.[A-Z|a-z]{2,}\b`.  The local part must
be the maximal run of local characters (a shorter run would end before
another local character, which cannot be the `@`), followed by the `@` and
the backtracking domain/closing parts. -/
def matchEmail (prev : Option Char) (s : List Char) : Option ℕ :=
  match s with
  | [] => none
  | c :: _ =>
      if isWordOpt prev = isWordChar c then none  -- \b at the match start
      else
        let l := maxRun isLocalChar s
        if l = 0 then none
        else
          match s.drop l with
          | a :: rest =>
              if a = '@' then
                tryDomain rest (l + 1) (maxRun isDomainChar rest)
              else none
          | [] => none

/-- Matcher for the name pattern `\b[A-Z][a-z]+ [A-Z][a-z]+\b`.  Both
lowercase runs are forced to be maximal: a shorter run ends before a
lowercase character, which is neither the literal space nor a non-word
character. -/
def matchName (prev : Option Char) (s : List Char) : Option ℕ :=
  match s with
  | [] => none
  | c1 :: s1 =>
      if isWordOpt prev then none
      else if ¬ c1.isUpper then none
      else
        let r1 := maxRun Char.isLower s1
        if r1 = 0 then none
        else
          match s1.drop r1 with
          | ' ' :: s2 =>
              match s2 with
              | [] => none
              | c2 :: s3 =>
                  if ¬ c2.isUpper then none
                  else
                    let r2 := maxRun Char.isLower s3
                    if r2 = 0 then none
                    else if isWordOpt (s3.drop r2).head? then none
                    else some (1 + r1 + 1 + 1 + r2)
          | _ => none

/-- The street-type alternation of the address pattern, in source order. -/
def streetAlts : List (List Char) :=
  ["Street".data, "St".data, "Avenue".data, "Ave".data, "Road".data,
   "Rd".data, "Boulevard".data, "Blvd".data, "Lane".data, "Ln".data,
   "Drive".data, "Dr".data]

/-- Ordered alternation `(Street|St|...)\b`: the first alternative that is a
prefix of the text and is followed by a word boundary wins (a failing `\b`
backtracks into the next alternative).  Every alternative consists of
letters, so the boundary holds iff the next character is a non-word one. -/
def tryAlts (s : List Char) (k : ℕ) : List (List Char) → Option ℕ
  | [] => none
  | alt :: rest =>
      if alt.isPrefixOf s ∧ ¬ isWordOpt (s.drop alt.length).head?
      then some (k + alt.length)
      else tryAlts s k rest

/-- Matcher for the address pattern
`\b\d{1,5}\s\w+\s(Street|St|Avenue|Ave|Road|Rd|Boulevard|Blvd|Lane|Ln|Drive|Dr)\b`.
The digit run must be its maximal run (a shorter greedy take is followed by
a digit, not `\s`) of length 1..5, and similarly the `\w+` run is maximal. -/
def matchAddress (prev : Option Char) (s : List Char) : Option ℕ :=
  if isWordOpt prev then none
  else
    let rd := maxRun Char.isDigit s
    if rd = 0 ∨ 5 < rd then none
    else
      match (s.drop rd).head? with
      | some c =>
          if ¬ isSpaceChar c then none
          else
            let s1 := s.drop (rd + 1)
            let rw := maxRun isWordChar s1
            if rw = 0 then none
            else
              match (s1.drop rw).head? with
              | some c2 =>
                  if ¬ isSpaceChar c2 then none
                  else tryAlts (s1.drop (rw + 1)) (rd + 1 + rw + 1) streetAlts
              | none => none
      | none => none

/-- Python `re.finditer` over one pattern: scan left to right, at each
position attempt the pattern, on success record the span and continue after
it (matches of one pattern never overlap), otherwise advance one character.
All five patterns only ever match at least one character; the zero-length
guard is unreachable and present only for termination.  The `fuel`
parameter (instantiated with the text length by `finditer`) only makes the
recursion structural: each step consumes at least one character. -/
def finditerAux (m : Option Char → List Char → Option ℕ) :
    ℕ → Option Char → List Char → ℕ → List (ℕ × ℕ)
  | 0, _, _, _ => []
  | _ + 1, _, [], _ => []
  | fuel + 1, prev, s@(c :: cs), pos =>
      match m prev s with
      | some L =>
          if L = 0 then []
          else (pos, pos + L) ::
            finditerAux m fuel (s.take L).getLast? (s.drop L) (pos + L)
      | none => finditerAux m fuel (some c) cs (pos + 1)

/-- All matches of one pattern over the text (spans as start/end pairs). -/
def finditer (m : Option Char → List Char → Option ℕ)
    (prev : Option Char) (s : List Char) (pos : ℕ) : List (ℕ × ℕ) :=
  finditerAux m s.length prev s pos

/-- One detected PII entity (`_detect_pii_locally` output dict); the `end`
key of the Python dict is named `stop` here (`end` is reserved). -/
structure PIIEntity where
  type : String
  start : ℕ
  stop : ℕ
  confidence : ℚ
  deriving DecidableEq

/-- The `pii_patterns` table of `AparaviRedactor.__init__` (lines 32-38), in
insertion order, each regex replaced by its matcher. -/
def pii_patterns : List (String × (Option Char → List Char → Option ℕ)) :=
  [("SSN", matchSSN), ("PHONE", matchPhone), ("EMAIL", matchEmail),
   ("NAME", matchName), ("ADDRESS", matchAddress)]

/-- Embedding of `AparaviRedactor._detect_pii_locally` (lines 40-64): all
matches of every pattern, in pattern order, each with confidence 0.95. -/
def detect_pii_locally (text : List Char) : List PIIEntity :=
  pii_patterns.flatMap (fun pm =>
    (finditer pm.2 none text 0).map (fun sp =>
      { type := pm.1, start := sp.1, stop := sp.2, confidence := 95/100 }))

/-- Embedding of `AparaviRedactor._get_replacement` (lines 104-113). -/
def get_replacement (pii_type : String) : String :=
  if pii_type = "SSN" then "[SSN-REDACTED]"
  else if pii_type = "PHONE" then "[PHONE]"
  else if pii_type = "EMAIL" then "[EMAIL]"
  else if pii_type = "NAME" then "[PATIENT]"
  else if pii_type = "ADDRESS" then "[LOCATION]"
  else "[REDACTED]"

/-- Stable insertion into a list sorted by `start` descending: a new element
goes after existing elements with the same start, matching the stability of
Python `list.sort(key=..., reverse=True)`. -/
def insertByStartDesc (e : PIIEntity) : List PIIEntity → List PIIEntity
  | [] => [e]
  | x :: xs =>
      if x.start < e.start then e :: x :: xs else x :: insertByStartDesc e xs

/-- Replace the span of one entity by its placeholder
(`text[:start] + replacement + text[end:]`). -/
def replaceSpan (t : List Char) (e : PIIEntity) : List Char :=
  t.take e.start ++ (get_replacement e.type).data ++ t.drop e.stop

/-- Embedding of `AparaviRedactor.redact_text` (lines 66-102): detect, sort
by start position descending, then replace each span from the right so that
earlier replacements do not invalidate later offsets. -/
def redact_text (text : List Char) : List Char :=
  if text.isEmpty then text
  else
    let detected := detect_pii_locally text
    let sorted := detected.foldl (fun acc e => insertByStartDesc e acc) []
    sorted.foldl replaceSpan text

/-- The critical PII types of `is_hipaa_compliant` (line 164). -/
def critical_types : List String := ["SSN", "PHONE", "EMAIL"]

/-- Embedding of `AparaviRedactor.is_hipaa_compliant` (lines 151-169):
false iff some detected entity has a critical type and confidence above
0.7. -/
def is_hipaa_compliant (text : List Char) : Bool :=
  ! (detect_pii_locally text).any (fun e =>
      critical_types.contains e.type && decide ((7/10 : ℚ) < e.confidence))

/-- Result of `AparaviRedactor.analyze_pii_risk`.  The Python `pii_types`
value is `list(set(...))` whose order is unspecified; it is modelled as the
first-occurrence deduplication of the type list. -/
structure RiskAnalysis where
  risk_level : String
  pii_count : ℕ
  pii_types : List String
  hipaa_compliant : Bool
  detected_entities : List PIIEntity
  deriving DecidableEq

/-- Embedding of `AparaviRedactor.analyze_pii_risk` (lines 171-191). -/
def analyze_pii_risk (text : List Char) : RiskAnalysis :=
  let detected := detect_pii_locally text
  let risk1 := if 0 < detected.length then "MEDIUM" else "LOW"
  let risk2 :=
    if detected.any (fun e => e.type = "SSN" || e.type = "PHONE")
    then "HIGH" else risk1
  { risk_level := risk2,
    pii_count := detected.length,
    pii_types := (detected.map (·.type)).dedup,
    hipaa_compliant := is_hipaa_compliant text,
    detected_entities := detected }

/-- Helper for C6: the compliance loop of `is_hipaa_compliant` over an
arbitrary entity list. -/
lemma hipaaAux (l : List PIIEntity) :
    (! l.any (fun e =>
      critical_types.contains e.type && decide ((7/10 : ℚ) < e.confidence))) = true ↔
    ∀ e ∈ l, (e.type = "SSN" ∨ e.type = "PHONE" ∨ e.type = "EMAIL") →
      ¬ ((7/10 : ℚ) < e.confidence) := by
  simp [List.any_eq_false, critical_types, not_and]

/-- Helper for C6: the three risk bands of `analyze_pii_risk` over an
arbitrary entity list. -/
lemma riskAux (l : List PIIEntity) :
    ((if l.any (fun e => e.type = "SSN" || e.type = "PHONE") then "HIGH"
      else if 0 < l.length then "MEDIUM" else "LOW") = "HIGH" ↔
      ∃ e ∈ l, e.type = "SSN" ∨ e.type = "PHONE") ∧
    ((if l.any (fun e => e.type = "SSN" || e.type = "PHONE") then "HIGH"
      else if 0 < l.length then "MEDIUM" else "LOW") = "MEDIUM" ↔
      (l ≠ [] ∧ ∀ e ∈ l, ¬ (e.type = "SSN" ∨ e.type = "PHONE"))) ∧
    ((if l.any (fun e => e.type = "SSN" || e.type = "PHONE") then "HIGH"
      else if 0 < l.length then "MEDIUM" else "LOW") = "LOW" ↔ l = []) := by
  by_cases hA : l.any (fun e => e.type = "SSN" || e.type = "PHONE") = true
  · have hEx : ∃ e ∈ l, e.type = "SSN" ∨ e.type = "PHONE" := by
      simpa using hA
    rw [if_pos hA]
    refine ⟨iff_of_true rfl hEx, ?_, ?_⟩
    · refine iff_of_false (by decide) ?_
      rintro ⟨hne, hall⟩
      obtain ⟨e, he, h⟩ := hEx
      exact hall e he h
    · refine iff_of_false (by decide) ?_
      intro hnil
      obtain ⟨e, he, _⟩ := hEx
      rw [hnil] at he
      exact absurd he (List.not_mem_nil e)
  · have hAll : ∀ e ∈ l, ¬ (e.type = "SSN" ∨ e.type = "PHONE") := by
      intro e he h
      exact hA (List.any_eq_true.mpr ⟨e, he, by simpa using h⟩)
    rw [if_neg hA]
    by_cases hnil : l = []
    · have h0 : ¬ 0 < l.length := by simp [hnil]
      rw [if_neg h0]
      refine ⟨iff_of_false (by decide) ?_, iff_of_false (by decide) ?_,
        iff_of_true rfl hnil⟩
      · rintro ⟨e, he, _⟩
        rw [hnil] at he
        exact absurd he (List.not_mem_nil e)
      · rintro ⟨h, _⟩
        exact h hnil
    · have hpos : 0 < l.length := List.length_pos.mpr hnil
      rw [if_pos hpos]
      refine ⟨iff_of_false (by decide) ?_, iff_of_true rfl ⟨hnil, hAll⟩,
        iff_of_false (by decide) hnil⟩
      rintro ⟨e, he, h⟩
      exact hAll e he h

/-- C6: for every input text, `analyze_pii_risk` reports risk_level HIGH iff
some SSN or phone match exists, MEDIUM iff some match exists but none is SSN
or phone, and LOW iff there is no match; and `is_hipaa_compliant` is true
iff no SSN, phone or email match has confidence above the fixed 0.7
threshold. -/
theorem analyze_pii_risk_levels (text : List Char) :
    ((analyze_pii_risk text).risk_level = "HIGH" ↔
      ∃ e ∈ detect_pii_locally text, e.type = "SSN" ∨ e.type = "PHONE") ∧
    ((analyze_pii_risk text).risk_level = "MEDIUM" ↔
      (detect_pii_locally text ≠ [] ∧
        ∀ e ∈ detect_pii_locally text,
          ¬ (e.type = "SSN" ∨ e.type = "PHONE"))) ∧
    ((analyze_pii_risk text).risk_level = "LOW" ↔
      detect_pii_locally text = []) ∧
    (is_hipaa_compliant text = true ↔
      ∀ e ∈ detect_pii_locally text,
        (e.type = "SSN" ∨ e.type = "PHONE" ∨ e.type = "EMAIL") →
          ¬ ((7/10 : ℚ) < e.confidence)) := by
  obtain ⟨h1, h2, h3⟩ := riskAux (detect_pii_locally text)
  exact ⟨h1, h2, h3, hipaaAux (detect_pii_locally text)⟩

/-! ### C7 — idempotence on placeholder-only text

The claim quantifies over texts made of the placeholder tokens separated by
whitespace or punctuation; the following definitions formalise that class
of texts (Python `string.whitespace` and `string.punctuation`, written as
an explicit character list; the apostrophe, backtick and brace characters
are spelled with `Char.ofNat`). -/

def sepCharList : List Char :=
  [' ', '\t', '\n', '\r', Char.ofNat 11, Char.ofNat 12,
   '!', '"', '#', '$', '%', '&', Char.ofNat 39, '(', ')', '*', '+', ',',
   '-', '.', '/', ':', ';', '<', '=', '>', '?', '@', '[', '\\', ']', '^',
   '_', Char.ofNat 96, Char.ofNat 123, '|', Char.ofNat 125, '~']

/-- Whitespace-or-punctuation separator characters. -/
def isSepChar (c : Char) : Bool := sepCharList.contains c

/-- The placeholder tokens emitted by `_get_replacement`. -/
def placeholder_tokens : List String :=
  ["[SSN-REDACTED]", "[PHONE]", "[EMAIL]", "[PATIENT]", "[LOCATION]",
   "[REDACTED]"]

/-- A text assembled from whole tokens and single separator characters. -/
def renderPieces (ps : List (String ⊕ Char)) : List Char :=
  ps.flatMap (fun p => match p with
    | Sum.inl s => s.data
    | Sum.inr c => [c])

/-- Every piece is a placeholder token or a whitespace/punctuation
separator: the class of texts of the C7 claim. -/
def goodPieces (ps : List (String ⊕ Char)) : Bool :=
  ps.all (fun p => match p with
    | Sum.inl s => placeholder_tokens.contains s
    | Sum.inr c => isSepChar c)

/-- As `goodPieces`, but with the at-sign excluded from the separators (the
amendment forced by the counterexample). -/
def goodPiecesNoAt (ps : List (String ⊕ Char)) : Bool :=
  ps.all (fun p => match p with
    | Sum.inl s => placeholder_tokens.contains s
    | Sum.inr c => isSepChar c && !(c = '@'))

/-- The counterexample text `"[PATIENT] _@-.||_ [LOCATION]"`: placeholder
tokens separated by whitespace/punctuation only, yet the separator run
`_@-.||` matches the email regex (local part `_`, domain `-`, closing class
`||`) and is replaced by `[EMAIL]`. -/
def c7Pieces : List (String ⊕ Char) :=
  [Sum.inl "[PATIENT]", Sum.inr ' ', Sum.inr '_', Sum.inr '@', Sum.inr '-',
   Sum.inr '.', Sum.inr '|', Sum.inr '|', Sum.inr '_', Sum.inr ' ',
   Sum.inl "[LOCATION]"]

/-- C7 counterexample: a text consisting only of placeholder tokens
separated by whitespace and punctuation on which `redact_text` is not the
identity. -/
theorem redact_text_idempotence_counterexample :
    goodPieces c7Pieces = true ∧
    redact_text (renderPieces c7Pieces) ≠ renderPieces c7Pieces := by
  exact ⟨by decide, by decide⟩

/-- Characters that can start no match of any of the five patterns: not a
digit, not a lowercase letter, not the at-sign. -/
def benignChar (c : Char) : Bool := !c.isDigit && !c.isLower && !(c = '@')

/-- A run headed by a character failing `p` is empty. -/
lemma maxRun_eq_zero {p : Char → Bool} {s : List Char}
    (h : ∀ c ∈ s, p c = false) : maxRun p s = 0 := by
  cases s with
  | nil => rfl
  | cons c cs => simp [maxRun, List.takeWhile_cons, h c (by simp)]

/-- A nonzero digit count cannot be taken from benign text. -/
lemma exactN_digit_none (n : ℕ) (hn : n ≠ 0) {s : List Char}
    (h : ∀ c ∈ s, benignChar c = true) :
    exactN n Char.isDigit s = none := by
  obtain ⟨m, rfl⟩ := Nat.exists_eq_succ_of_ne_zero hn
  cases s with
  | nil => rfl
  | cons c cs =>
      have hc := h c (by simp)
      simp [benignChar] at hc
      simp [exactN, hc.1.1]

/-- The SSN pattern never matches inside benign text. -/
lemma matchSSN_none (prev : Option Char) {s : List Char}
    (h : ∀ c ∈ s, benignChar c = true) : matchSSN prev s = none := by
  unfold matchSSN
  split_ifs
  · rfl
  · rw [exactN_digit_none 3 (by norm_num) h]
    rfl

/-- The phone pattern never matches inside benign text. -/
lemma matchPhone_none (prev : Option Char) {s : List Char}
    (h : ∀ c ∈ s, benignChar c = true) : matchPhone prev s = none := by
  unfold matchPhone
  split_ifs
  · rfl
  · rw [exactN_digit_none 3 (by norm_num) h]
    rfl

/-- The email pattern never matches inside benign text (no at-sign). -/
lemma matchEmail_none (prev : Option Char) {s : List Char}
    (h : ∀ c ∈ s, benignChar c = true) : matchEmail prev s = none := by
  cases s with
  | nil => rfl
  | cons c cs =>
      simp only [matchEmail]
      split_ifs with h1 h2
      · rfl
      · rfl
      · cases e : (c :: cs).drop (maxRun isLocalChar (c :: cs)) with
        | nil => simp [e]
        | cons a rest =>
            have ha : a ∈ c :: cs := by
              have : a ∈ (c :: cs).drop (maxRun isLocalChar (c :: cs)) := by
                rw [e]; exact List.mem_cons_self a rest
              exact List.drop_subset _ _ this
            have hben := h a ha
            simp [benignChar] at hben
            simp [e, hben.2]

/-- The name pattern never matches inside benign text (no lowercase). -/
lemma matchName_none (prev : Option Char) {s : List Char}
    (h : ∀ c ∈ s, benignChar c = true) : matchName prev s = none := by
  cases s with
  | nil => rfl
  | cons c1 s1 =>
      unfold matchName
      have hr : maxRun Char.isLower s1 = 0 := by
        refine maxRun_eq_zero (fun c hc => ?_)
        have := h c (List.mem_cons_of_mem _ hc)
        simp [benignChar] at this
        exact this.1.2
      split_ifs <;> simp [hr]

/-- The address pattern never matches inside benign text (no digits). -/
lemma matchAddress_none (prev : Option Char) {s : List Char}
    (h : ∀ c ∈ s, benignChar c = true) : matchAddress prev s = none := by
  unfold matchAddress
  have hr : maxRun Char.isDigit s = 0 := by
    refine maxRun_eq_zero (fun c hc => ?_)
    have := h c hc
    simp [benignChar] at this
    exact this.1.1
  split_ifs <;> simp_all

/-- A matcher that fails on all benign suffixes finds nothing in benign
text. -/
lemma finditerAux_nil (m : Option Char → List Char → Option ℕ)
    (hm : ∀ prev s, (∀ c ∈ s, benignChar c = true) → m prev s = none)
    (fuel : ℕ) :
    ∀ (prev : Option Char) (s : List Char) (pos : ℕ),
      (∀ c ∈ s, benignChar c = true) → finditerAux m fuel prev s pos = [] := by
  induction fuel with
  | zero => intro prev s pos _; rfl
  | succ n ih =>
      intro prev s pos h
      cases s with
      | nil => rfl
      | cons c cs =>
          have hnone := hm prev (c :: cs) h
          simp only [finditerAux, hnone]
          exact ih (some c) cs (pos + 1)
            (fun x hx => h x (List.mem_cons_of_mem _ hx))

/-- No PII is detected in benign text. -/
lemma detect_pii_locally_nil {text : List Char}
    (h : ∀ c ∈ text, benignChar c = true) : detect_pii_locally text = [] := by
  have h1 := finditerAux_nil matchSSN (fun p s hs => matchSSN_none p hs)
    text.length none text 0 h
  have h2 := finditerAux_nil matchPhone (fun p s hs => matchPhone_none p hs)
    text.length none text 0 h
  have h3 := finditerAux_nil matchEmail (fun p s hs => matchEmail_none p hs)
    text.length none text 0 h
  have h4 := finditerAux_nil matchName (fun p s hs => matchName_none p hs)
    text.length none text 0 h
  have h5 := finditerAux_nil matchAddress
    (fun p s hs => matchAddress_none p hs) text.length none text 0 h
  simp [detect_pii_locally, pii_patterns, finditer, h1, h2, h3, h4, h5]

/-- When nothing is detected, redaction is the identity. -/
lemma redact_text_of_detect_nil {text : List Char}
    (h : detect_pii_locally text = []) : redact_text text = text := by
  unfold redact_text
  split_ifs
  · rfl
  · simp [h]

/-- Every character of a placeholder token is benign. -/
lemma token_benign :
    ∀ s ∈ placeholder_tokens, ∀ c ∈ s.data, benignChar c = true := by decide

/-- Every separator other than the at-sign is benign. -/
lemma sep_benign {c : Char} (h1 : isSepChar c = true) (h2 : ¬ c = '@') :
    benignChar c = true := by
  have hmem : c ∈ sepCharList := by
    simpa [isSepChar] using h1
  simp only [sepCharList] at hmem
  fin_cases hmem <;> first | decide | exact absurd rfl h2

/-- Every character of an at-sign-free placeholder text is benign. -/
lemma renderPieces_benign {ps : List (String ⊕ Char)}
    (h : goodPiecesNoAt ps = true) :
    ∀ c ∈ renderPieces ps, benignChar c = true := by
  intro c hc
  simp only [renderPieces, List.mem_flatMap] at hc
  obtain ⟨p, hp, hcp⟩ := hc
  have hg := (List.all_eq_true.mp h) p hp
  cases p with
  | inl s =>
      simp only at hcp hg
      exact token_benign s (by simpa using hg) c hcp
  | inr d =>
      simp only [List.mem_singleton] at hcp
      simp only [Bool.and_eq_true, Bool.not_eq_true', decide_eq_false_iff_not]
        at hg
      subst hcp
      exact sep_benign hg.1 hg.2

/-- C7 amended: on every text consisting only of placeholder tokens
separated by whitespace or punctuation other than the at-sign,
`redact_text` returns the text unchanged.  (The at-sign exclusion is forced
by the counterexample: an at-sign among the separators can complete an
email-pattern match.) -/
theorem redact_text_idempotent_amended (ps : List (String ⊕ Char))
    (h : goodPiecesNoAt ps = true) :
    redact_text (renderPieces ps) = renderPieces ps :=
  redact_text_of_detect_nil (detect_pii_locally_nil (renderPieces_benign h))

/-- C7 amended witness: the concrete placeholder text
`"[PATIENT] [PHONE]"` is returned unchanged. -/
theorem redact_text_idempotent_amended_witness :
    goodPiecesNoAt [Sum.inl "[PATIENT]", Sum.inr ' ', Sum.inl "[PHONE]"] =
      true ∧
    redact_text (renderPieces
        [Sum.inl "[PATIENT]", Sum.inr ' ', Sum.inl "[PHONE]"]) =
      renderPieces [Sum.inl "[PATIENT]", Sum.inr ' ', Sum.inl "[PHONE]"] :=
  ⟨by decide, redact_text_idempotent_amended _ (by decide)⟩

/-! ### C10 — `redact_dict` frame property

Python dicts with string keys are embedded as association lists with
distinct keys; `dict.copy()` followed by key-wise assignment becomes a pure
per-entry map (the input value is never mutated — immutability is inherent
to the embedding).  A value is either a string (subject to redaction) or
any other Python object, opaque here. -/

inductive PyValue where
  | str : String → PyValue
  | other : ℕ → PyValue
  deriving DecidableEq

/-- The `text_fields` list of `AparaviRedactor.redact_dict` (lines
128-136). -/
def text_fields : List String :=
  ["voice_note", "emt_name", "patient_name", "notes", "description",
   "comment", "message"]

/-- Embedding of `AparaviRedactor.redact_dict` (lines 115-149): text fields
holding a string are redacted, the `ssn`/`patient_ssn` fields are always
overwritten with the SSN placeholder, and every other entry is kept as
is. -/
def redact_dict (data : List (String × PyValue)) : List (String × PyValue) :=
  data.map (fun kv =>
    if kv.1 = "patient_ssn" ∨ kv.1 = "ssn" then
      (kv.1, PyValue.str "[SSN-REDACTED]")
    else if kv.1 ∈ text_fields then
      match kv.2 with
      | PyValue.str s => (kv.1, PyValue.str (String.mk (redact_text s.data)))
      | v => (kv.1, v)
    else kv)

/-- The `text_fields` list of `PIIRedactor.redact_dict`
(pii_redactor.py lines 106-113; no `message` field). -/
def presidio_text_fields : List String :=
  ["voice_note", "emt_name", "patient_name", "notes", "description",
   "comment"]

/-- Embedding of `PIIRedactor.redact_dict` (pii_redactor.py lines 93-126).
Its `redact_text` delegates to the external Presidio engine, which is not
part of the repository, so the text transformation is a parameter `rt`;
the frame property holds for every `rt`. -/
def presidio_redact_dict (rt : String → String)
    (data : List (String × PyValue)) : List (String × PyValue) :=
  data.map (fun kv =>
    if kv.1 = "patient_ssn" ∨ kv.1 = "ssn" then
      (kv.1, PyValue.str "[SSN-REDACTED]")
    else if kv.1 ∈ presidio_text_fields then
      match kv.2 with
      | PyValue.str s => (kv.1, PyValue.str (rt s))
      | v => (kv.1, v)
    else kv)

/-- C10: both `redact_dict` functions change at most the values of the
fixed text fields plus the `ssn`/`patient_ssn` keys: the key sequence is
unchanged (no key added, removed or renamed), and every entry whose key is
none of those keys is returned identically (the input association list
itself is a value and is never mutated). -/
theorem redact_dict_frame (d : List (String × PyValue)) :
    ((redact_dict d).map Prod.fst = d.map Prod.fst) ∧
    (∀ (i : ℕ) (kv : String × PyValue), d[i]? = some kv →
      kv.1 ∉ text_fields → kv.1 ≠ "ssn" → kv.1 ≠ "patient_ssn" →
      (redact_dict d)[i]? = some kv) ∧
    (∀ rt : String → String,
      ((presidio_redact_dict rt d).map Prod.fst = d.map Prod.fst) ∧
      ∀ (i : ℕ) (kv : String × PyValue), d[i]? = some kv →
        kv.1 ∉ text_fields → kv.1 ≠ "ssn" → kv.1 ≠ "patient_ssn" →
        (presidio_redact_dict rt d)[i]? = some kv) := by
  have hsub : ∀ x : String, x ∈ presidio_text_fields → x ∈ text_fields := by
    intro x hx
    simp only [presidio_text_fields, text_fields, List.mem_cons,
      List.not_mem_nil, or_false] at *
    tauto
  refine ⟨?_, ?_, fun rt => ⟨?_, ?_⟩⟩
  · rw [redact_dict, List.map_map]
    refine List.map_congr_left (fun kv _ => ?_)
    simp only [Function.comp_apply]
    split_ifs <;> (try rfl) <;> (cases kv.2 <;> rfl)
  · intro i kv hi hnt hns hnp
    rw [redact_dict, List.getElem?_map, hi]
    simp only [Option.map_some']
    rw [if_neg (by tauto), if_neg hnt]
  · rw [presidio_redact_dict, List.map_map]
    refine List.map_congr_left (fun kv _ => ?_)
    simp only [Function.comp_apply]
    split_ifs <;> (try rfl) <;> (cases kv.2 <;> rfl)
  · intro i kv hi hnt hns hnp
    rw [presidio_redact_dict, List.getElem?_map, hi]
    simp only [Option.map_some']
    rw [if_neg (by tauto), if_neg (fun hx => hnt (hsub _ hx))]

/-- C10 witness: a non-text, non-SSN entry survives redaction untouched. -/
theorem redact_dict_frame_witness :
    (redact_dict [("patient_id", PyValue.str "P-2024-001"),
      ("ssn", PyValue.str "123-45-6789")])[0]? =
      some ("patient_id", PyValue.str "P-2024-001") :=
  (redact_dict_frame _).2.1 0 ("patient_id", PyValue.str "P-2024-001")
    (by rfl) (by decide) (by decide) (by decide)

end GoldenBridge
